import Mathlib

/-!
Verification of the natural-language specification of the jinja client module
(`core/dbt/common/clients/jinja.py`) against a shallow embedding of its code.

The embedding models Python values flowing through the module as an inductive
type `PyVal`, stateful pieces (the template cache) as explicit state passing,
and fallible code as `Except`.  Each definition is translated from the source
file; definitions for code of the repository that is not part of the sources
at hand (the `dbt.common.utils` name manglers and the `dbt.common.exceptions`
class hierarchy) are modelled from the specification and say so in their doc
comments.
-/

/-- Interpretation-hint tag attached to a rendered string by the native-env
marker classes of the source: `TextMarker`, `NativeMarker`, and its two
subclasses `BoolMarker` and `NumberMarker`. -/
inductive Marker
  | text
  | native
  | bool
  | number
deriving DecidableEq

/-- Python values flowing through the module, as far as the claims need them:
strings (optionally carrying a marker tag, since the marker classes are `str`
subclasses), integers, booleans and `None`.  Containers and floats play no
role in any claim and are not modelled. -/
inductive PyVal
  | str (s : String) (m : Option Marker)
  | int (n : Int)
  | bool (b : Bool)
  | none
deriving DecidableEq

/-- Python `str()` of a value: markers are `str` subclasses so they render as
their content; `True`/`False`/`None` render as in Python. -/
def pyStr : PyVal → String
  | .str s _ => s
  | .int n => toString n
  | .bool b => if b then "True" else "False"
  | .none => "None"

/-- `isinstance(v, TextMarker)`. -/
def PyVal.isTextMarker : PyVal → Bool
  | .str _ (Option.some Marker.text) => true
  | _ => false

/-- `isinstance(v, NativeMarker)` — `BoolMarker` and `NumberMarker` are
subclasses of `NativeMarker`. -/
def PyVal.isNativeMarker : PyVal → Bool
  | .str _ (Option.some Marker.native) => true
  | .str _ (Option.some Marker.bool) => true
  | .str _ (Option.some Marker.number) => true
  | _ => false

/-- `isinstance(v, BoolMarker)`. -/
def PyVal.isBoolMarker : PyVal → Bool
  | .str _ (Option.some Marker.bool) => true
  | _ => false

/-- `isinstance(v, NumberMarker)`. -/
def PyVal.isNumberMarker : PyVal → Bool
  | .str _ (Option.some Marker.number) => true
  | _ => false

/-- `isinstance(v, bool)`. -/
def PyVal.isPyBool : PyVal → Bool
  | .bool _ => true
  | _ => false

/-- Whether a value carries any marker tag at all. -/
def PyVal.hasMarker : PyVal → Bool
  | .str _ (Option.some _) => true
  | _ => false

/-- `_is_number` from the source: `isinstance(value, (int, float)) and not
isinstance(value, bool)` (floats are not modelled). -/
def is_number : PyVal → Bool
  | .int _ => true
  | _ => false

/-- A single-quote character, used to build the error messages of the source
verbatim. -/
def qc : String := ⟨[Char.ofNat 39]⟩

/-- The `JinjaRenderingError` message raised by `quoted_native_concat`:
`f"Could not convert value thequotedvalue into type thequotedtype"`. -/
def convErr (v ty : String) : String :=
  "Could not convert value " ++ qc ++ v ++ qc ++ " into type " ++ qc ++ ty ++ qc

/-- Whitespace as stripped by the Python parser around a literal. -/
def isSpaceChar (c : Char) : Bool :=
  c == ' ' || c == '\t' || c == '\n' || c == '\r'

/-- Strip leading and trailing whitespace from a character list. -/
def trimChars (l : List Char) : List Char :=
  ((l.dropWhile isSpaceChar).reverse.dropWhile isSpaceChar).reverse

/-- Strip leading and trailing whitespace from a string. -/
def pyTrim (s : String) : String := ⟨trimChars s.data⟩

/-- Decimal value of a digit list. -/
def digitsVal (l : List Char) : Nat :=
  l.foldl (fun a c => a * 10 + (c.toNat - 48)) 0

/-- Parse a Python integer literal with optional sign; mirrors what
`ast.literal_eval` accepts for integers (no leading zeros on multi-digit
literals). -/
def parseIntLit (t : String) : Option Int :=
  let (neg, ds) :=
    match t.data with
    | '-' :: rest => (true, rest)
    | '+' :: rest => (false, rest)
    | l => (false, l)
  if !ds.isEmpty && ds.all Char.isDigit && (ds.length == 1 || !(ds.head? == Option.some '0')) then
    Option.some (if neg then -(digitsVal ds : Int) else (digitsVal ds : Int))
  else
    Option.none

/-- Model of the Python standard-library `ast.literal_eval` on the fragment
the claims exercise: the keyword literals `True`, `False`, `None` and signed
integer literals.  `Option.none` models the `ValueError`/`SyntaxError` raised
on anything else (e.g. `literal_eval("abc")`). -/
def literalEval (s : String) : Option PyVal :=
  let t := pyTrim s
  if t = "True" then Option.some (PyVal.bool true)
  else if t = "False" then Option.some (PyVal.bool false)
  else if t = "None" then Option.some PyVal.none
  else (parseIntLit t).map PyVal.int

/-- `quoted_native_concat` from the source.  The source materialises
`head = list(islice(nodes, 2))` and, in the multi-element case, joins
`chain(head, nodes)` — since `islice` consumed the first two elements of the
iterator, that chain is exactly the full node sequence, so the embedding
matches directly on the list of rendered nodes.  Errors are the
`JinjaRenderingError` messages. -/
def quoted_native_concat (nodes : List PyVal) : Except String PyVal :=
  match nodes with
  | [] => Except.ok (PyVal.str "" Option.none)
  | [raw] =>
    if raw.isTextMarker then Except.ok (PyVal.str (pyStr raw) Option.none)
    else if !raw.isNativeMarker then Except.ok raw
    else
      let result := (literalEval (pyStr raw)).getD raw
      if raw.isBoolMarker && !result.isPyBool then
        Except.error (convErr (pyStr raw) "bool")
      else if raw.isNumberMarker && !(is_number result) then
        Except.error (convErr (pyStr raw) "number")
      else Except.ok result
  | vs => Except.ok (PyVal.str (String.join (vs.map pyStr)) Option.none)

/-- `NATIVE_FILTERS` from the source: each filter wraps its argument in the
corresponding marker class; the marker constructors are `str` subclasses, so
construction stringifies the argument. -/
def NATIVE_FILTERS : List (String × (PyVal → PyVal)) :=
  [("as_text", fun x => PyVal.str (pyStr x) (Option.some Marker.text)),
   ("as_bool", fun x => PyVal.str (pyStr x) (Option.some Marker.bool)),
   ("as_native", fun x => PyVal.str (pyStr x) (Option.some Marker.native)),
   ("as_number", fun x => PyVal.str (pyStr x) (Option.some Marker.number))]

/-- `TEXT_FILTERS` from the source: every filter is `lambda x: x`. -/
def TEXT_FILTERS : List (String × (PyVal → PyVal)) :=
  [("as_text", fun x => x),
   ("as_bool", fun x => x),
   ("as_native", fun x => x),
   ("as_number", fun x => x)]

/-- The filter table `get_environment` installs into the environment via
`env.filters.update(filters)`: `NATIVE_FILTERS` when `native=True`, otherwise
`TEXT_FILTERS`. -/
def envFilters (native : Bool) : List (String × (PyVal → PyVal)) :=
  if native then NATIVE_FILTERS else TEXT_FILTERS

/-- `_is_dunder_name` from the source: `name.startswith("__") and
name.endswith("__")`. -/
def is_dunder (s : String) : Bool :=
  match s.data with
  | '_' :: '_' :: _ =>
    match s.data.reverse with
    | '_' :: '_' :: _ => true
    | _ => false
  | _ => false

/-- The deferred `Undefined` value produced by `create_undefined`: its
instance state, set in `__init__` — the owning `node` (the closure argument of
`create_undefined`), the missing `name`, and the `hint`. -/
structure Undef where
  node : Option String
  name : Option String
  hint : Option String
deriving DecidableEq

/-- `Undefined.__getitem__` from the source: propagates the undefined value
itself when accessed as a dictionary — it returns `self`, ignoring the key. -/
def undef_getitem (u : Undef) (_key : PyVal) : Undef := u

/-- `Undefined.__call__` from the source: returns `self`, ignoring the
arguments. -/
def undef_call (u : Undef) : Undef := u

/-- `Undefined.__getattr__` from the source: raises `AttributeError` for
`"name"` and dunder names, otherwise records the accessed name and returns a
fresh instance `self.__class__(hint=self.hint, name=self.name)` (the fresh
instance also closes over the same `node`).  Python only consults
`__getattr__` for attributes missing from the instance dictionary, so the
instance attributes set in `__init__` (`name`, `hint`, `node`,
`unsafe_callable`, `alters_data`) resolve to their stored values instead. -/
def undef_getattr (u : Undef) (attr : String) : Except String Undef :=
  if attr = "name" ∨ is_dunder attr then
    Except.error (qc ++ "Undefined" ++ qc ++ " object has no attribute " ++ qc ++ attr ++ qc)
  else
    Except.ok { u with name := Option.some attr }

/-- Instance attributes of the `Undefined` class, assigned in `__init__`;
Python attribute lookup resolves these from the instance dictionary without
calling `__getattr__`. -/
def reservedUndefAttrs : List String :=
  ["name", "hint", "node", "unsafe_callable", "alters_data"]

/-- The `UndefinedCompilationError` raised by `Undefined.__reduce__`, as far
as its payload goes: the missing name and the owning node. -/
structure UndefinedCompilationError where
  name : Option String
  node : Option String
deriving DecidableEq

/-- `Undefined.__reduce__` from the source: always raises
`UndefinedCompilationError(name=self.name, node=node)`; `node` is the closure
argument of `create_undefined`, which equals the instance field by
construction. -/
def undef_reduce (u : Undef) : Except UndefinedCompilationError PyVal :=
  Except.error { name := u.name, node := u.node }

/-- Exceptions crossing `call_macro` and the two `exception_handler`
implementations.  `typeError` and `templateRuntimeError` are Python
`TypeError` and `jinja2.exceptions.TemplateRuntimeError`; `macroReturn` is the
`MacroReturn` early-return signal carrying its value; the remaining
constructors are the dbt error classes.  `caughtMacroError`,
`caughtMacroErrorWithNode` and `compilationError` model, per the spec's error
taxonomy (the `dbt.common.exceptions` module is not among the sources), the
`CompilationError` family, each carrying the macro-call `stack` list that the
handlers append to. -/
inductive Exc
  | typeError (msg : String)
  | templateRuntimeError (msg : String)
  | macroReturn (v : PyVal)
  | caughtMacroError (exc : Exc) (stack : List String)
  | caughtMacroErrorWithNode (exc : Exc) (node : String) (stack : List String)
  | compilationError (msg : String) (stack : List String)
  | dbtInternalError (msg : String)
deriving DecidableEq

/-- Modelled from the spec: `isinstance(e, CompilationError)` for the error
classes above — the wrapped macro errors and plain compilation errors form
the `CompilationError` family whose `stack` accumulates the macro-call
chain. -/
def Exc.isCompilationError : Exc → Bool
  | .caughtMacroError _ _ => true
  | .caughtMacroErrorWithNode _ _ _ => true
  | .compilationError _ _ => true
  | _ => false

/-- `e.stack.append(self.macro)` on a `CompilationError`; identity on
anything else. -/
def Exc.pushStack (node : String) : Exc → Exc
  | .caughtMacroError e st => .caughtMacroError e (st ++ [node])
  | .caughtMacroErrorWithNode e n st => .caughtMacroErrorWithNode e n (st ++ [node])
  | .compilationError m st => .compilationError m (st ++ [node])
  | e => e

/-- `BaseMacroGenerator.exception_handler` from the source: `TypeError` and
`TemplateRuntimeError` are re-raised as `CaughtMacroError(e)`; everything else
passes through. -/
def base_exception_handler (r : Except Exc PyVal) : Except Exc PyVal :=
  match r with
  | Except.error (Exc.typeError m) =>
      Except.error (Exc.caughtMacroError (Exc.typeError m) [])
  | Except.error (Exc.templateRuntimeError m) =>
      Except.error (Exc.caughtMacroError (Exc.templateRuntimeError m) [])
  | r => r

/-- `CallableMacroGenerator.exception_handler` from the source: `TypeError`
and `TemplateRuntimeError` are re-raised as
`CaughtMacroErrorWithNodeError(exc=e, node=self.macro)`; a propagating
`CompilationError` gets the current macro appended to its `stack` and is
re-raised; everything else passes through. -/
def callable_exception_handler (node : String) (r : Except Exc PyVal) : Except Exc PyVal :=
  match r with
  | Except.error (Exc.typeError m) =>
      Except.error (Exc.caughtMacroErrorWithNode (Exc.typeError m) node [])
  | Except.error (Exc.templateRuntimeError m) =>
      Except.error (Exc.caughtMacroErrorWithNode (Exc.templateRuntimeError m) node [])
  | Except.error e =>
      if e.isCompilationError then Except.error (Exc.pushStack node e) else Except.error e
  | r => r

/-- `BaseMacroGenerator.call_macro` from the source (named `call_macro`
there): fails with `DbtInternalError` when the context is still `None`;
otherwise invokes the macro under `self.exception_handler()`, converting a
`MacroReturn` signal raised by the body into the returned value.  The
dynamically dispatched `exception_handler` is passed explicitly; the macro
body's outcome is the `body` argument. -/
def callMacro (handler : Except Exc PyVal → Except Exc PyVal)
    (context : Option (List (String × PyVal))) (body : Except Exc PyVal) :
    Except Exc PyVal :=
  match context with
  | Option.none => Except.error (Exc.dbtInternalError "Context is still None in call_macro!")
  | Option.some _ =>
      handler
        (match body with
         | Except.error (Exc.macroReturn v) => Except.ok v
         | r => r)

/-- Jinja expression nodes appearing in a materialization header, as far as
the claims need them: constants (`jinja2.nodes.Const`), list literals of
constants (`jinja2.nodes.List`), and names with a context
(`jinja2.nodes.Name`); jinja node equality is structural. -/
inductive JExpr
  | const (v : PyVal)
  | listConst (vs : List PyVal)
  | nameE (id : String) (ctx : String)
deriving DecidableEq

/-- `SUPPORTED_LANG_ARG` from the source:
`jinja2.nodes.Name("supported_languages", "param")`. -/
def SUPPORTED_LANG_ARG : JExpr := JExpr.nameE "supported_languages" "param"

/-- Tokens of a materialization tag header after the materialization name,
as `MaterializationExtension.parse` consumes them from the parser stream: a
comma, a bare name (what `parse_assign_target(name_only=True)` accepts), the
assignment token, a parsed expression (the result of `parse_expression`), and
the end of the statement block. -/
inductive Tok
  | comma
  | name (s : String)
  | assign
  | exprLit (e : JExpr)
  | blockEnd
deriving DecidableEq

/-- Errors raised while parsing a materialization tag:
`MaterializationArgError(materialization_name, target.name)` for an
unrecognized keyword, and jinja's generic `TemplateSyntaxError` for a stream
token that violates the grammar. -/
inductive ParseErr
  | materializationArg (mat : String) (kw : String)
  | syntaxError (msg : String)
deriving DecidableEq

/-- The macro node produced by `MaterializationExtension.parse`: its mangled
name and the `args`/`defaults` lists (the body is not modelled). -/
structure MacroNode where
  name : String
  args : List JExpr
  defaults : List JExpr
deriving DecidableEq

/-- Modelled from the spec: `get_materialization_macro_name` is imported from
`dbt.common.utils`, which is not among the sources; the spec says namespaced
names are a kind prefix plus the original name plus the adapter qualifier for
materializations. -/
def get_materialization_macro_name (mat adapter : String) : String :=
  "materialization_" ++ mat ++ "_" ++ adapter

/-- `value.value` of the expression parsed for `adapter=`: only a `Const`
node has a `value` attribute (anything else would crash with
`AttributeError`, modelled as `Option.none`). -/
def adapterValue : JExpr → Option String
  | JExpr.const v => Option.some (pyStr v)
  | _ => Option.none

/-- The `while parser.stream.skip_if("comma")` loop of
`MaterializationExtension.parse`: each iteration reads an assign target name
and dispatches — `default` is skipped, `adapter` expects `=` and records the
constant's value, `supported_languages` expects `=`, appends the
`param`-context name to `args` and the expression to `defaults`, and any other
name raises `MaterializationArgError(materialization_name, target.name)`.
The loop stops at the first token that is not a comma and returns the adapter
name, the accumulated args and defaults, and the unconsumed stream. -/
def matLoop (mat : String) (adapter : String) (args defaults : List JExpr) :
    List Tok → Except ParseErr (String × List JExpr × List JExpr × List Tok)
  | Tok.comma :: rest =>
      match rest with
      | Tok.name t :: rest2 =>
          if t = "default" then matLoop mat adapter args defaults rest2
          else if t = "adapter" then
            match rest2 with
            | Tok.assign :: Tok.exprLit e :: rest3 =>
                match adapterValue e with
                | Option.some a => matLoop mat a args defaults rest3
                | Option.none => Except.error (ParseErr.syntaxError "adapter value is not a constant")
            | _ => Except.error (ParseErr.syntaxError "expected token assign")
          else if t = "supported_languages" then
            match rest2 with
            | Tok.assign :: Tok.exprLit e :: rest3 =>
                matLoop mat adapter (args ++ [SUPPORTED_LANG_ARG]) (defaults ++ [e]) rest3
            | _ => Except.error (ParseErr.syntaxError "expected token assign")
          else Except.error (ParseErr.materializationArg mat t)
      | _ => Except.error (ParseErr.syntaxError "expected name")
  | toks => Except.ok (adapter, args, defaults, toks)

/-- `MaterializationExtension.parse` from the source, after the
materialization name has been read: runs the option loop with
`adapter_name = "default"` and empty `args`/`defaults`; if
`SUPPORTED_LANG_ARG` is not among the args, appends it with default
`jinja2.nodes.List([jinja2.nodes.Const("sql")])`; mangles the node name from
the materialization name and the adapter; then `parse_statements` requires
the header to end (`block_end`) before the body. -/
def parseMaterialization (mat : String) (toks : List Tok) : Except ParseErr MacroNode :=
  match matLoop mat "default" [] [] toks with
  | Except.error e => Except.error e
  | Except.ok (adapter_name, args0, defaults0, rest) =>
      let ad :=
        if SUPPORTED_LANG_ARG ∈ args0 then (args0, defaults0)
        else (args0 ++ [SUPPORTED_LANG_ARG],
              defaults0 ++ [JExpr.listConst [PyVal.str "sql" Option.none]])
      match rest with
      | Tok.blockEnd :: _ =>
          Except.ok
            { name := get_materialization_macro_name mat adapter_name,
              args := ad.1, defaults := ad.2 }
      | _ => Except.error (ParseErr.syntaxError "expected end of statement block")

/-- `MacroProtocol` from the source: a macro-like node with a `name` and its
`macro_sql` source text. -/
structure MacroProtocol where
  name : String
  macro_sql : String
deriving DecidableEq

/-- The state of `TemplateCache`: the `file_cache` dict keyed by source text,
plus a counter supplying the identity of the next compiled template object
(`get_template` constructs a fresh object on every call, so object identities
are modelled as increasing naturals). -/
structure CacheState where
  file_cache : List (String × Nat)
  next_id : Nat
deriving DecidableEq

/-- Dictionary lookup in the `file_cache`. -/
def lookupKey : List (String × Nat) → String → Option Nat
  | [], _ => Option.none
  | p :: rest, k => if p.1 = k then Option.some p.2 else lookupKey rest k

/-- `TemplateCache.get_node_template` from the source: keyed by
`node.macro_sql` alone; a hit returns the cached template without compiling,
a miss compiles a fresh template (fresh identity), stores it under the key
and returns it. -/
def get_node_template (st : CacheState) (node : MacroProtocol) : Nat × CacheState :=
  let key := node.macro_sql
  match lookupKey st.file_cache key with
  | Option.some t => (t, st)
  | Option.none =>
      (st.next_id,
       { file_cache := (key, st.next_id) :: st.file_cache, next_id := st.next_id + 1 })

/-- `TemplateCache.clear` from the source: `self.file_cache.clear()`; the
identity counter is state of the surrounding process, not of the dict, so it
is untouched (a later compile still produces a fresh object). -/
def clearCache (st : CacheState) : CacheState :=
  { file_cache := [], next_id := st.next_id }

/-- Cache-state invariant: every cached template identity was minted by an
earlier compile, i.e. is below the counter.  It holds for the empty cache and
is preserved by `get_node_template`. -/
def validCache (st : CacheState) : Prop :=
  ∀ p ∈ st.file_cache, p.2 < st.next_id

/-- Expressions of the mini template fragment used to model rendering of a
template that references context names: a name reference, attribute access,
and a call. -/
inductive JinjaExpr
  | name (s : String)
  | getattr (e : JinjaExpr) (a : String)
  | call (e : JinjaExpr)
deriving DecidableEq

/-- Values during template evaluation: strings from the context, jinja's
default `Undefined` (normal mode) remembering the missing name, and the
deferred undefined installed by `get_environment` in capture mode. -/
inductive RVal
  | str (s : String)
  | plainUndef (name : Option String)
  | deferred (u : Undef)
deriving DecidableEq

/-- Render-time jinja exceptions: `jinja2.exceptions.UndefinedError` and
Python `AttributeError`. -/
inductive JinjaErr
  | undefinedError (msg : String)
  | attributeError (msg : String)
deriving DecidableEq

/-- jinja's undefined message for a named missing name:
`f"{name} is undefined"` with the name in single quotes. -/
def undefinedMsg : Option String → String
  | Option.some n => qc ++ n ++ qc ++ " is undefined"
  | Option.none => "object is undefined"

/-- `name[:2] == "__"`, the guard of `jinja2.Undefined.__getattr__`. -/
def startsUnderUnder (s : String) : Bool :=
  match s.data with
  | '_' :: '_' :: _ => true
  | _ => false

/-- Context lookup for the render model. -/
def lookupCtx : List (String × RVal) → String → Option RVal
  | [], _ => Option.none
  | p :: rest, k => if p.1 = k then Option.some p.2 else lookupCtx rest k

/-- Evaluation of the mini template fragment, modelling rendering inside the
module's sandboxed environment with either jinja's default `Undefined`
(normal mode, no `undefined=` argument) or the `create_undefined` class that
`get_environment` installs when `capture_macros=True`: a context miss
produces the mode's undefined value; jinja's default undefined raises
`UndefinedError` on attribute access (`AttributeError` for names starting
with a double underscore) and on call, while the deferred undefined follows
`undef_getattr` and `undef_call`.  Attribute access and call on plain
strings play no role in the claims and are modelled as errors. -/
def evalExpr (capture : Bool) (nid : Option String) (ctx : List (String × RVal)) :
    JinjaExpr → Except JinjaErr RVal
  | JinjaExpr.name s =>
      match lookupCtx ctx s with
      | Option.some v => Except.ok v
      | Option.none =>
          if capture then
            Except.ok
              (RVal.deferred { node := nid, name := Option.some s, hint := Option.none })
          else Except.ok (RVal.plainUndef (Option.some s))
  | JinjaExpr.getattr e a =>
      match evalExpr capture nid ctx e with
      | Except.error err => Except.error err
      | Except.ok (RVal.str _) => Except.error (JinjaErr.attributeError a)
      | Except.ok (RVal.plainUndef n) =>
          if startsUnderUnder a then Except.error (JinjaErr.attributeError a)
          else Except.error (JinjaErr.undefinedError (undefinedMsg n))
      | Except.ok (RVal.deferred u) =>
          match undef_getattr u a with
          | Except.ok u2 => Except.ok (RVal.deferred u2)
          | Except.error m => Except.error (JinjaErr.attributeError m)
  | JinjaExpr.call e =>
      match evalExpr capture nid ctx e with
      | Except.error err => Except.error err
      | Except.ok (RVal.str _) => Except.error (JinjaErr.attributeError "not callable")
      | Except.ok (RVal.plainUndef n) =>
          Except.error (JinjaErr.undefinedError (undefinedMsg n))
      | Except.ok (RVal.deferred u) => Except.ok (RVal.deferred (undef_call u))

/-- `str()` of a rendered value in the template output: jinja's default
`Undefined.__str__` returns the empty string, and the capture-mode undefined
inherits it. -/
def rvalStr : RVal → String
  | RVal.str s => s
  | RVal.plainUndef _ => ""
  | RVal.deferred _ => ""

/-- Errors after `catch_jinja` translation: `UndefinedMacroError(str(e),
node)` wrapping a jinja `UndefinedError`, or an exception `catch_jinja` does
not catch, re-raised unchanged. -/
inductive DbtRenderErr
  | undefinedMacroError (msg : String) (node : Option String)
  | uncaught (e : JinjaErr)
deriving DecidableEq

/-- `catch_jinja` from the source, restricted to the exceptions that can
arise while rendering this fragment: a `jinja2.exceptions.UndefinedError`
becomes `UndefinedMacroError(str(e), node)`; anything else propagates.  (The
`TemplateSyntaxError` and `CompilationError` arms of the source concern
parse-time errors, which cannot occur in this render fragment.) -/
def catch_jinja (node : Option String) (r : Except JinjaErr String) :
    Except DbtRenderErr String :=
  match r with
  | Except.ok s => Except.ok s
  | Except.error (JinjaErr.undefinedError m) =>
      Except.error (DbtRenderErr.undefinedMacroError m node)
  | Except.error e => Except.error (DbtRenderErr.uncaught e)

/-- `render_template` from the source, for a template consisting of a single
interpolated expression: evaluates it, stringifies the result into the
output, and wraps the whole render in `catch_jinja(node)`. -/
def render_template (capture : Bool) (node : Option String)
    (ctx : List (String × RVal)) (t : JinjaExpr) : Except DbtRenderErr String :=
  catch_jinja node ((evalExpr capture node ctx t).map rvalStr)

/-- Template expressions whose attribute accesses use plain identifiers:
not shadowed by the undefined's instance attributes and not starting with a
double underscore (such names take reflective special paths in both
undefined implementations). -/
def goodAttrs : JinjaExpr → Bool
  | JinjaExpr.name _ => true
  | JinjaExpr.getattr e a =>
      decide (¬ a ∈ reservedUndefAttrs) && !(is_dunder a) && !(startsUnderUnder a) &&
        goodAttrs e
  | JinjaExpr.call e => goodAttrs e

/-- The name at the root of a template expression — the context name the
expression dereferences. -/
def rootName : JinjaExpr → String
  | JinjaExpr.name s => s
  | JinjaExpr.getattr e _ => rootName e
  | JinjaExpr.call e => rootName e

/-- Whether the expression applies at least one operation (attribute access
or call) to its root reference, i.e. concretizes the value beyond plain
text interpolation. -/
def hasOp : JinjaExpr → Bool
  | JinjaExpr.name _ => false
  | _ => true

/-- Claim C1: the native-coercion reduction step dispatches on the result
sequence exactly as specified — an empty sequence returns the empty string, a
single `TextMarker`-tagged value is returned as plain text, a single untagged
value is returned unchanged, and a sequence of more than one element is
stringified and concatenated with no coercion applied. -/
theorem C1_quoted_native_concat_dispatch :
    quoted_native_concat [] = Except.ok (PyVal.str "" Option.none) ∧
    (∀ s, quoted_native_concat [PyVal.str s (Option.some Marker.text)] =
      Except.ok (PyVal.str s Option.none)) ∧
    (∀ v, v.hasMarker = false → quoted_native_concat [v] = Except.ok v) ∧
    (∀ ns : List PyVal, 2 ≤ ns.length →
      quoted_native_concat ns =
        Except.ok (PyVal.str (String.join (ns.map pyStr)) Option.none)) := by
  refine ⟨rfl, fun s => rfl, ?_, ?_⟩
  · intro v hv
    cases v with
    | str s m =>
      cases m with
      | some mk => simp [PyVal.hasMarker] at hv
      | none => rfl
    | int n => rfl
    | bool b => rfl
    | none => rfl
  · intro ns hlen
    match ns with
    | [] => simp at hlen
    | [a] => simp at hlen
    | a :: b :: t => rfl

/-- Witness for C1: the hypothesis-bearing conjuncts evaluated at concrete
inputs — a single untagged integer passes through, and a two-element sequence
is concatenated as text. -/
theorem C1_quoted_native_concat_dispatch_witness :
    quoted_native_concat [PyVal.int 5] = Except.ok (PyVal.int 5) ∧
    quoted_native_concat [PyVal.str "a" Option.none, PyVal.int 7] =
      Except.ok (PyVal.str "a7" Option.none) := by
  constructor
  · exact C1_quoted_native_concat_dispatch.2.2.1 (PyVal.int 5) rfl
  · exact C1_quoted_native_concat_dispatch.2.2.2 [PyVal.str "a" Option.none, PyVal.int 7] (by decide)

/-- Claim C2: a single `bool`/`number`/`native`-tagged value goes through
generic literal parsing; on parse failure a `native` tag falls back to the raw
string, while a `bool` tag that does not parse to a boolean or a `number` tag
that does not parse to a non-boolean numeric raises the coercion error naming
the value and the target type; concretely, `as_number "42"` yields the integer
`42` and `as_number "abc"` errors naming type `number`. -/
theorem C2_quoted_native_concat_coercion :
    (∀ s, literalEval s = Option.none →
      quoted_native_concat [PyVal.str s (Option.some Marker.native)] =
        Except.ok (PyVal.str s (Option.some Marker.native))) ∧
    (∀ s v, literalEval s = Option.some v →
      quoted_native_concat [PyVal.str s (Option.some Marker.native)] = Except.ok v) ∧
    (∀ s b, literalEval s = Option.some (PyVal.bool b) →
      quoted_native_concat [PyVal.str s (Option.some Marker.bool)] =
        Except.ok (PyVal.bool b)) ∧
    (∀ s, literalEval s = Option.none →
      quoted_native_concat [PyVal.str s (Option.some Marker.bool)] =
        Except.error (convErr s "bool")) ∧
    (∀ s v, literalEval s = Option.some v → v.isPyBool = false →
      quoted_native_concat [PyVal.str s (Option.some Marker.bool)] =
        Except.error (convErr s "bool")) ∧
    (∀ s n, literalEval s = Option.some (PyVal.int n) →
      quoted_native_concat [PyVal.str s (Option.some Marker.number)] =
        Except.ok (PyVal.int n)) ∧
    (∀ s, literalEval s = Option.none →
      quoted_native_concat [PyVal.str s (Option.some Marker.number)] =
        Except.error (convErr s "number")) ∧
    (∀ s v, literalEval s = Option.some v → is_number v = false →
      quoted_native_concat [PyVal.str s (Option.some Marker.number)] =
        Except.error (convErr s "number")) ∧
    quoted_native_concat [PyVal.str "42" (Option.some Marker.number)] =
      Except.ok (PyVal.int 42) ∧
    quoted_native_concat [PyVal.str "abc" (Option.some Marker.number)] =
      Except.error (convErr "abc" "number") := by
  refine ⟨?_, ?_, ?_, ?_, ?_, ?_, ?_, ?_, rfl, rfl⟩
  · intro s h
    simp [quoted_native_concat, PyVal.isTextMarker, PyVal.isNativeMarker,
      PyVal.isBoolMarker, PyVal.isNumberMarker, pyStr, h, Option.getD,
      PyVal.isPyBool, is_number]
  · intro s v h
    cases v <;>
      simp [quoted_native_concat, PyVal.isTextMarker, PyVal.isNativeMarker,
        PyVal.isBoolMarker, PyVal.isNumberMarker, pyStr, h, Option.getD,
        PyVal.isPyBool, is_number]
  · intro s b h
    simp [quoted_native_concat, PyVal.isTextMarker, PyVal.isNativeMarker,
      PyVal.isBoolMarker, PyVal.isNumberMarker, pyStr, h, Option.getD,
      PyVal.isPyBool, is_number]
  · intro s h
    simp [quoted_native_concat, PyVal.isTextMarker, PyVal.isNativeMarker,
      PyVal.isBoolMarker, PyVal.isNumberMarker, pyStr, h, Option.getD,
      PyVal.isPyBool, is_number]
  · intro s v h hb
    cases v <;>
      simp_all [quoted_native_concat, PyVal.isTextMarker, PyVal.isNativeMarker,
        PyVal.isBoolMarker, PyVal.isNumberMarker, pyStr, Option.getD,
        PyVal.isPyBool, is_number]
  · intro s n h
    simp [quoted_native_concat, PyVal.isTextMarker, PyVal.isNativeMarker,
      PyVal.isBoolMarker, PyVal.isNumberMarker, pyStr, h, Option.getD,
      PyVal.isPyBool, is_number]
  · intro s h
    simp [quoted_native_concat, PyVal.isTextMarker, PyVal.isNativeMarker,
      PyVal.isBoolMarker, PyVal.isNumberMarker, pyStr, h, Option.getD,
      PyVal.isPyBool, is_number]
  · intro s v h hn
    cases v <;>
      simp_all [quoted_native_concat, PyVal.isTextMarker, PyVal.isNativeMarker,
        PyVal.isBoolMarker, PyVal.isNumberMarker, pyStr, Option.getD,
        PyVal.isPyBool, is_number]

/-- Witness for C2: the hypothesis-bearing conjuncts at concrete inputs — a
`native`-tagged `"abc"` falls back to the raw string, a `bool`-tagged `"True"`
parses, a `bool`-tagged `"42"` errors, a `number`-tagged `"True"` errors. -/
theorem C2_quoted_native_concat_coercion_witness :
    quoted_native_concat [PyVal.str "abc" (Option.some Marker.native)] =
      Except.ok (PyVal.str "abc" (Option.some Marker.native)) ∧
    quoted_native_concat [PyVal.str "True" (Option.some Marker.bool)] =
      Except.ok (PyVal.bool true) ∧
    quoted_native_concat [PyVal.str "42" (Option.some Marker.bool)] =
      Except.error (convErr "42" "bool") ∧
    quoted_native_concat [PyVal.str "True" (Option.some Marker.number)] =
      Except.error (convErr "True" "number") := by
  refine ⟨?_, ?_, ?_, ?_⟩
  · exact C2_quoted_native_concat_coercion.1 "abc" (by decide)
  · exact C2_quoted_native_concat_coercion.2.2.1 "True" true (by decide)
  · exact C2_quoted_native_concat_coercion.2.2.2.2.1 "42" (PyVal.int 42) (by decide) (by decide)
  · exact C2_quoted_native_concat_coercion.2.2.2.2.2.2.2.1 "True" (PyVal.bool true) (by decide) (by decide)

/-- Claim C5 counterexample: index access on a DeferredUndefined does not
return a new undefined remembering the accessed name — `__getitem__` returns
`self` unchanged, so indexing an undefined named `x` with key `"y"` yields the
very same undefined still named `x`, not `y`. -/
theorem C5_undef_getitem_counterexample :
    undef_getitem
        { node := Option.some "m", name := Option.some "x", hint := Option.none }
        (PyVal.str "y" Option.none) =
      { node := Option.some "m", name := Option.some "x", hint := Option.none } ∧
    ({ node := Option.some "m", name := Option.some "x", hint := Option.none } : Undef).name ≠
      Option.some "y" := by
  exact ⟨rfl, by decide⟩

/-- Claim C5 as amended: attribute access through `__getattr__` on a
non-reserved, non-dunder name returns a new DeferredUndefined remembering the
accessed name; index access and call return the undefined value itself
unchanged (still deferred, but recording nothing); the value fails only on
reduction, with a structured error carrying the missing name and the owning
node. -/
theorem C5_undefined_propagation :
    (∀ (u : Undef) (a : String), ¬ a ∈ reservedUndefAttrs → is_dunder a = false →
      undef_getattr u a = Except.ok { u with name := Option.some a }) ∧
    (∀ (u : Undef) (k : PyVal), undef_getitem u k = u) ∧
    (∀ u : Undef, undef_call u = u) ∧
    (∀ u : Undef, undef_reduce u = Except.error { name := u.name, node := u.node }) := by
  refine ⟨?_, fun u k => rfl, fun u => rfl, fun u => rfl⟩
  intro u a hres hd
  have hn : ¬ a = "name" := by
    intro h
    exact hres (by rw [h]; simp [reservedUndefAttrs])
  simp [undef_getattr, hn, hd]

/-- Witness for C5: accessing attribute `"foo"` on a concrete undefined named
`x` yields a new undefined named `foo`. -/
theorem C5_undefined_propagation_witness :
    undef_getattr
        { node := Option.some "m", name := Option.some "x", hint := Option.none } "foo" =
      Except.ok
        { node := Option.some "m", name := Option.some "foo", hint := Option.none } := by
  exact C5_undefined_propagation.1
    { node := Option.some "m", name := Option.some "x", hint := Option.none } "foo"
    (by decide) (by decide)

/-- Claim C8: a `MacroReturn` signal raised by the macro body is caught by
`call_macro` and its carried value becomes the invocation's result, under
both the base and the callable exception handler. -/
theorem C8_call_macro_macro_return :
    (∀ (c : List (String × PyVal)) (v : PyVal),
      callMacro base_exception_handler (Option.some c) (Except.error (Exc.macroReturn v)) =
        Except.ok v) ∧
    (∀ (c : List (String × PyVal)) (v : PyVal) (n : String),
      callMacro (callable_exception_handler n) (Option.some c)
          (Except.error (Exc.macroReturn v)) =
        Except.ok v) := by
  exact ⟨fun c v => rfl, fun c v n => rfl⟩

/-- Claim C9: the callable generator's handler wraps a `TypeError` or
`TemplateRuntimeError` raised during macro execution into an error preserving
the triggering exception and the owning macro node; a propagating
`CompilationError` gets the current macro appended to its stack; nesting two
handlers therefore records the full macro-call chain, innermost node first. -/
theorem C9_callable_exception_wrapping :
    (∀ (n m : String) (c : List (String × PyVal)),
      callMacro (callable_exception_handler n) (Option.some c)
          (Except.error (Exc.typeError m)) =
        Except.error (Exc.caughtMacroErrorWithNode (Exc.typeError m) n [])) ∧
    (∀ (n m : String) (c : List (String × PyVal)),
      callMacro (callable_exception_handler n) (Option.some c)
          (Except.error (Exc.templateRuntimeError m)) =
        Except.error (Exc.caughtMacroErrorWithNode (Exc.templateRuntimeError m) n [])) ∧
    (∀ (n m : String) (st : List String) (c : List (String × PyVal)),
      callMacro (callable_exception_handler n) (Option.some c)
          (Except.error (Exc.compilationError m st)) =
        Except.error (Exc.compilationError m (st ++ [n]))) ∧
    (∀ (n1 n2 m : String) (c : List (String × PyVal)),
      callMacro (callable_exception_handler n2) (Option.some c)
          (callMacro (callable_exception_handler n1) (Option.some c)
            (Except.error (Exc.typeError m))) =
        Except.error (Exc.caughtMacroErrorWithNode (Exc.typeError m) n1 [n2])) := by
  exact ⟨fun n m c => rfl, fun n m c => rfl, fun n m st c => rfl, fun n1 n2 m c => rfl⟩

/-- Claim C10: in non-native mode the environment's filter table is
`TEXT_FILTERS`, whose keys are exactly the four coercion filters, and every
one of them is the identity function on every value. -/
theorem C10_text_filters_identity :
    envFilters false = TEXT_FILTERS ∧
    TEXT_FILTERS.map Prod.fst = ["as_text", "as_bool", "as_native", "as_number"] ∧
    (∀ p ∈ envFilters false, ∀ v : PyVal, p.2 v = v) := by
  refine ⟨rfl, rfl, ?_⟩
  intro p hp v
  simp only [envFilters, if_neg Bool.false_ne_true, TEXT_FILTERS, List.mem_cons,
    List.not_mem_nil, or_false] at hp
  rcases hp with rfl | rfl | rfl | rfl <;> rfl

/-- Witness for C10: the `as_text` filter of the non-native table applied to
a concrete integer returns it unchanged. -/
theorem C10_text_filters_identity_witness :
    (("as_text", fun (x : PyVal) => x) : String × (PyVal → PyVal)).2 (PyVal.int 3) =
      PyVal.int 3 := by
  exact C10_text_filters_identity.2.2 ("as_text", fun x => x)
    (by simp [envFilters, TEXT_FILTERS]) (PyVal.int 3)

/-- Helper: a successful `file_cache` lookup returns an entry of the cache
list. -/
theorem lookupKey_mem {l : List (String × Nat)} {k : String} {t : Nat}
    (h : lookupKey l k = Option.some t) : (k, t) ∈ l := by
  induction l with
  | nil => simp [lookupKey] at h
  | cons p rest ih =>
      by_cases hk : p.1 = k
      · simp only [lookupKey, if_pos hk, Option.some.injEq] at h
        subst hk
        subst h
        exact List.mem_cons_self p rest
      · simp only [lookupKey, if_neg hk] at h
        exact List.mem_cons_of_mem p (ih h)

/-- Claim C3 counterexample: `default=1` is a keyword argument whose keyword
is neither `adapter` nor `supported_languages`, yet parsing does not raise a
grammar error naming the materialization and the keyword — the bare name
`default` is silently skipped and the leftover `=` later fails the
end-of-block check with a generic syntax error. -/
theorem C3_default_kwarg_counterexample :
    parseMaterialization "view"
        [Tok.comma, Tok.name "default", Tok.assign,
         Tok.exprLit (JExpr.const (PyVal.int 1)), Tok.blockEnd] =
      Except.error (ParseErr.syntaxError "expected end of statement block") ∧
    ParseErr.syntaxError "expected end of statement block" ≠
      ParseErr.materializationArg "view" "default" := by
  exact ⟨rfl, by decide⟩

/-- Claim C3 as amended: a keyword argument whose keyword is none of the
three recognized names `default`, `adapter`, `supported_languages` makes the
parse raise `MaterializationArgError` naming the materialization and the
keyword; the bare keyword `default` is silently skipped (and `default=value`
fails later with a generic syntax error that names neither). -/
theorem C3_materialization_unknown_kwarg :
    (∀ (mat kw : String) (rest : List Tok),
      kw ≠ "default" → kw ≠ "adapter" → kw ≠ "supported_languages" →
      parseMaterialization mat (Tok.comma :: Tok.name kw :: rest) =
        Except.error (ParseErr.materializationArg mat kw)) ∧
    (∀ (mat : String) (rest : List Tok),
      parseMaterialization mat (Tok.comma :: Tok.name "default" :: rest) =
        parseMaterialization mat rest) := by
  constructor
  · intro mat kw rest h1 h2 h3
    have hm : matLoop mat "default" [] [] (Tok.comma :: Tok.name kw :: rest) =
        Except.error (ParseErr.materializationArg mat kw) := by
      rw [matLoop.eq_def]
      simp only [if_neg h1, if_neg h2, if_neg h3]
    simp only [parseMaterialization, hm]
  · intro mat rest
    have hm : matLoop mat "default" [] [] (Tok.comma :: Tok.name "default" :: rest) =
        matLoop mat "default" [] [] rest := by
      rw [matLoop.eq_def]
      simp only [if_pos rfl]
      exact if_pos trivial
    simp only [parseMaterialization, hm]

/-- Witness for C3 (amended): the unrecognized keyword `foo` raises the
error naming materialization `view` and `foo`, and a bare `default` before
the block end parses like an empty header. -/
theorem C3_materialization_unknown_kwarg_witness :
    parseMaterialization "view" (Tok.comma :: Tok.name "foo" :: [Tok.blockEnd]) =
      Except.error (ParseErr.materializationArg "view" "foo") ∧
    parseMaterialization "view" (Tok.comma :: Tok.name "default" :: [Tok.blockEnd]) =
      parseMaterialization "view" [Tok.blockEnd] := by
  constructor
  · exact C3_materialization_unknown_kwarg.1 "view" "foo" [Tok.blockEnd]
      (by decide) (by decide) (by decide)
  · exact C3_materialization_unknown_kwarg.2 "view" [Tok.blockEnd]

/-- Claim C4: every successfully parsed materialization node carries the
`supported_languages` parameter; it is synthesized with default `["sql"]`
when the user omits it and not duplicated when supplied; the node name is
computed from the materialization name and the adapter (qualifier `default`
when omitted), so distinct adapters give distinct names. -/
theorem C4_materialization_node_shape :
    (∀ (mat : String) (toks : List Tok) (node : MacroNode),
      parseMaterialization mat toks = Except.ok node →
      SUPPORTED_LANG_ARG ∈ node.args) ∧
    (∀ mat : String,
      parseMaterialization mat [Tok.blockEnd] =
        Except.ok
          { name := get_materialization_macro_name mat "default",
            args := [SUPPORTED_LANG_ARG],
            defaults := [JExpr.listConst [PyVal.str "sql" Option.none]] }) ∧
    (parseMaterialization "view"
        [Tok.comma, Tok.name "adapter", Tok.assign,
         Tok.exprLit (JExpr.const (PyVal.str "postgres" Option.none)), Tok.blockEnd] =
      Except.ok
        { name := get_materialization_macro_name "view" "postgres",
          args := [SUPPORTED_LANG_ARG],
          defaults := [JExpr.listConst [PyVal.str "sql" Option.none]] }) ∧
    (∀ (mat : String) (e : JExpr),
      parseMaterialization mat
          [Tok.comma, Tok.name "supported_languages", Tok.assign, Tok.exprLit e,
           Tok.blockEnd] =
        Except.ok
          { name := get_materialization_macro_name mat "default",
            args := [SUPPORTED_LANG_ARG], defaults := [e] }) ∧
    (∀ mat a b : String, a ≠ b →
      get_materialization_macro_name mat a ≠ get_materialization_macro_name mat b) := by
  refine ⟨?_, fun mat => rfl, rfl, fun mat e => rfl, ?_⟩
  · intro mat toks node h
    unfold parseMaterialization at h
    cases hm : matLoop mat "default" [] [] toks with
    | error e => rw [hm] at h; exact absurd h (by simp)
    | ok val =>
        obtain ⟨ad, args0, defaults0, rest⟩ := val
        rw [hm] at h
        simp only at h
        split at h
        · cases h with
          | refl =>
              by_cases hmem : SUPPORTED_LANG_ARG ∈ args0
              · simp only [if_pos hmem]
                exact hmem
              · simp only [if_neg hmem]
                exact List.mem_append_right args0 (List.mem_singleton.mpr rfl)
        · exact absurd h (by simp)
  · intro mat a b hne h
    apply hne
    have h2 := congrArg String.data h
    simp only [get_materialization_macro_name, String.data_append,
      List.append_assoc, List.append_right_inj] at h2
    cases a
    cases b
    exact congrArg String.mk h2

/-- Witness for C4: the parse of an option-free header contains the
`supported_languages` parameter, and the `postgres`/`redshift`
specializations of `view` get distinct names. -/
theorem C4_materialization_node_shape_witness :
    SUPPORTED_LANG_ARG ∈
      ({ name := get_materialization_macro_name "view" "default",
         args := [SUPPORTED_LANG_ARG],
         defaults := [JExpr.listConst [PyVal.str "sql" Option.none]] } : MacroNode).args ∧
    get_materialization_macro_name "view" "postgres" ≠
      get_materialization_macro_name "view" "redshift" := by
  constructor
  · exact C4_materialization_node_shape.1 "view" [Tok.blockEnd] _ rfl
  · exact C4_materialization_node_shape.2.2.2.2 "view" "postgres" "redshift" (by decide)

/-- Claim C7: `TemplateCache.get_node_template` is content-addressed by the
node's source text alone — a second call with an equal `macro_sql` returns
the identical cached template with no compilation (the state is unchanged),
regardless of the node's name; distinct fresh sources get distinct
templates; and clearing the cache then recompiling yields a fresh template
identity. -/
theorem C7_template_cache_content_addressed :
    (∀ (st : CacheState) (n1 n2 : MacroProtocol), n2.macro_sql = n1.macro_sql →
      (get_node_template (get_node_template st n1).2 n2).1 = (get_node_template st n1).1 ∧
      (get_node_template (get_node_template st n1).2 n2).2 = (get_node_template st n1).2) ∧
    (∀ (st : CacheState) (n1 n2 : MacroProtocol), validCache st →
      lookupKey st.file_cache n1.macro_sql = Option.none →
      n1.macro_sql ≠ n2.macro_sql →
      (get_node_template (get_node_template st n1).2 n2).1 ≠ (get_node_template st n1).1) ∧
    (∀ (st : CacheState) (n : MacroProtocol), validCache st →
      (get_node_template (clearCache (get_node_template st n).2) n).1 ≠
        (get_node_template st n).1) := by
  refine ⟨?_, ?_, ?_⟩
  · intro st n1 n2 h
    cases hl : lookupKey st.file_cache n1.macro_sql with
    | some t => constructor <;> simp [get_node_template, h, hl]
    | none => constructor <;> simp [get_node_template, h, hl, lookupKey]
  · intro st n1 n2 hv hl hne
    have hne2 : ¬ (n1.macro_sql = n2.macro_sql) := hne
    cases hl2 : lookupKey st.file_cache n2.macro_sql with
    | some t =>
        have ht : t < st.next_id := hv (n2.macro_sql, t) (lookupKey_mem hl2)
        simp only [get_node_template, hl, hl2, if_neg hne2, lookupKey]
        omega
    | none =>
        simp only [get_node_template, hl, hl2, if_neg hne2, lookupKey]
        omega
  · intro st n hv
    cases hl : lookupKey st.file_cache n.macro_sql with
    | some t =>
        have ht : t < st.next_id := hv (n.macro_sql, t) (lookupKey_mem hl)
        simp only [get_node_template, clearCache, hl, lookupKey]
        omega
    | none =>
        simp only [get_node_template, clearCache, hl, lookupKey]
        omega

/-- Witness for C7: from the empty cache, a node named `b` with the same
source as a previously compiled node named `a` receives the identical cached
template; a same-named node with different source gets a different one; and
re-fetching after `clear()` yields a fresh identity. -/
theorem C7_template_cache_content_addressed_witness :
    (get_node_template (get_node_template ⟨[], 0⟩ ⟨"a", "src"⟩).2 ⟨"b", "src"⟩).1 =
      (get_node_template ⟨[], 0⟩ ⟨"a", "src"⟩).1 ∧
    (get_node_template (get_node_template ⟨[], 0⟩ ⟨"a", "s1"⟩).2 ⟨"a", "s2"⟩).1 ≠
      (get_node_template ⟨[], 0⟩ ⟨"a", "s1"⟩).1 ∧
    (get_node_template (clearCache (get_node_template ⟨[], 0⟩ ⟨"a", "s1"⟩).2) ⟨"a", "s1"⟩).1 ≠
      (get_node_template ⟨[], 0⟩ ⟨"a", "s1"⟩).1 := by
  refine ⟨?_, ?_, ?_⟩
  · exact (C7_template_cache_content_addressed.1 ⟨[], 0⟩ ⟨"a", "src"⟩ ⟨"b", "src"⟩ rfl).1
  · exact C7_template_cache_content_addressed.2.1 ⟨[], 0⟩ ⟨"a", "s1"⟩ ⟨"a", "s2"⟩
      (fun p hp => absurd hp (List.not_mem_nil p)) rfl (by decide)
  · exact C7_template_cache_content_addressed.2.2 ⟨[], 0⟩ ⟨"a", "s1"⟩
      (fun p hp => absurd hp (List.not_mem_nil p))

/-- Helper: in capture mode with an empty context, every well-formed
template expression evaluates to a deferred undefined — no exception
escapes. -/
theorem evalExpr_capture_deferred (nid : Option String) :
    ∀ t : JinjaExpr, goodAttrs t = true →
      ∃ u : Undef, evalExpr true nid [] t = Except.ok (RVal.deferred u) := by
  intro t
  induction t with
  | name s =>
      intro h
      exact ⟨{ node := nid, name := Option.some s, hint := Option.none }, rfl⟩
  | getattr e a ih =>
      intro h
      simp only [goodAttrs, Bool.and_eq_true, Bool.not_eq_true, decide_eq_true_eq] at h
      obtain ⟨⟨⟨h1, h2⟩, h3⟩, h4⟩ := h
      obtain ⟨u, hu⟩ := ih h4
      have h2f : is_dunder a = false := by revert h2; cases is_dunder a <;> simp
      have hname : ¬ a = "name" := fun hh => h1 (by rw [hh]; simp [reservedUndefAttrs])
      have hg : undef_getattr u a = Except.ok { u with name := Option.some a } := by
        unfold undef_getattr
        rw [if_neg]
        intro hc
        rcases hc with hc | hc
        · exact hname hc
        · rw [h2f] at hc
          exact Bool.false_ne_true hc
      exact ⟨{ u with name := Option.some a }, by simp only [evalExpr, hu, hg]⟩
  | call e ih =>
      intro h
      obtain ⟨u, hu⟩ := ih h
      exact ⟨u, by simp only [evalExpr, hu, undef_call]⟩

/-- Helper: in normal mode with an empty context, a bare name reference
evaluates to jinja's lenient undefined, and any operation on it raises
`UndefinedError` naming the root reference. -/
theorem evalExpr_normal_undefined (nid : Option String) :
    ∀ t : JinjaExpr, goodAttrs t = true →
      (hasOp t = false →
        evalExpr false nid [] t =
          Except.ok (RVal.plainUndef (Option.some (rootName t)))) ∧
      (hasOp t = true →
        evalExpr false nid [] t =
          Except.error (JinjaErr.undefinedError (undefinedMsg (Option.some (rootName t))))) := by
  intro t
  induction t with
  | name s =>
      intro h
      exact ⟨fun _ => rfl, fun hop => by simp [hasOp] at hop⟩
  | getattr e a ih =>
      intro h
      simp only [goodAttrs, Bool.and_eq_true, Bool.not_eq_true, decide_eq_true_eq] at h
      obtain ⟨⟨⟨h1, h2⟩, h3⟩, h4⟩ := h
      refine ⟨fun hop => by simp [hasOp] at hop, fun _ => ?_⟩
      by_cases hOp : hasOp e = true
      · have he := (ih h4).2 hOp
        simp only [evalExpr, he, rootName]
      · have hOp2 : hasOp e = false := by revert hOp; cases hasOp e <;> simp
        have he := (ih h4).1 hOp2
        have hsu : startsUnderUnder a = false := by
          revert h3; cases startsUnderUnder a <;> simp
        simp [evalExpr, he, rootName, hsu]
  | call e ih =>
      intro h
      refine ⟨fun hop => by simp [hasOp] at hop, fun _ => ?_⟩
      by_cases hOp : hasOp e = true
      · have he := (ih h).2 hOp
        simp only [evalExpr, he, rootName]
      · have hOp2 : hasOp e = false := by revert hOp; cases hasOp e <;> simp
        have he := (ih h).1 hOp2
        simp only [evalExpr, he, rootName]

/-- Claim C6 counterexample: a template that merely interpolates an
undefined name renders in normal mode to the empty string without raising —
jinja's default `Undefined.__str__` is lenient, so a bare reference to a
missing name does not produce the claimed undefined-reference error. -/
theorem C6_bare_reference_counterexample :
    render_template false (Option.some "n") [] (JinjaExpr.name "y") = Except.ok "" := by
  rfl

/-- Claim C6 as amended: for templates over names absent from the (empty)
context, capture mode never raises — the render completes and produces the
empty string; normal mode raises `UndefinedMacroError` naming the missing
root reference whenever the undefined value is operated on (called or
attribute-accessed), while a bare interpolation renders as the empty string
without raising. -/
theorem C6_capture_vs_normal :
    ∀ (nid : Option String) (t : JinjaExpr), goodAttrs t = true →
      render_template true nid [] t = Except.ok "" ∧
      (hasOp t = true →
        render_template false nid [] t =
          Except.error
            (DbtRenderErr.undefinedMacroError
              (undefinedMsg (Option.some (rootName t))) nid)) := by
  intro nid t h
  constructor
  · obtain ⟨u, hu⟩ := evalExpr_capture_deferred nid t h
    simp only [render_template, hu, Except.map, rvalStr, catch_jinja]
  · intro hop
    have he := (evalExpr_normal_undefined nid t h).2 hop
    simp only [render_template, he, Except.map, catch_jinja]

/-- Witness for C6 (amended): calling the undefined name `y` with an empty
context renders to `""` in capture mode and raises the wrapped undefined
error naming `y` in normal mode. -/
theorem C6_capture_vs_normal_witness :
    render_template true (Option.some "m") [] (JinjaExpr.call (JinjaExpr.name "y")) =
      Except.ok "" ∧
    render_template false (Option.some "m") [] (JinjaExpr.call (JinjaExpr.name "y")) =
      Except.error
        (DbtRenderErr.undefinedMacroError (undefinedMsg (Option.some "y"))
          (Option.some "m")) := by
  constructor
  · exact (C6_capture_vs_normal (Option.some "m") (JinjaExpr.call (JinjaExpr.name "y"))
      (by decide)).1
  · exact (C6_capture_vs_normal (Option.some "m") (JinjaExpr.call (JinjaExpr.name "y"))
      (by decide)).2 (by decide)
